import Mathlib

/-! Shallow embedding overview.
Shallow embedding of the image-embedding / Qdrant similarity-search
workflow of this repository.

The embedded source files are:
* `src/utils/embedding-node.ts` — `generateEmbedding`, `getModelInfo`;
* `src/app/api/add-to-collection/route.ts` — the fixed-collection ingest
  handler (`ensureCollection`, `POST`, numeric `Date.now()` point ids);
* the model-aware ingest handler (`ensureCollection(collectionName,
  vectorSize)` and `POST` with string `point_<now>_<rand>` ids, MIME-type
  and 10MB size validation, client-side embedding-length validation);
* the compare handlers (`POST` returning `results[0]?.score ?? 0`);
* `cosineSimilarity` (browser-side comparison utility).

External black boxes (the TensorFlow MobileNet model, the Replicate CLIP
endpoint, the remote Qdrant service's scoring) are modelled as explicit
function parameters; the Qdrant store itself is modelled as an explicit
state (a list of collections holding points), with upsert-by-id and
search semantics as described by the Qdrant REST API the code calls.
Vectors are modelled over `ℚ` (the similarity computation, which needs a
square root, is modelled over `ℝ`).
-/

namespace ImageEmbed

/-- Model selector `EmbeddingModelType` from `src/utils/embedding-node.ts`:
`"MobileNet" | "CLIP"`. -/
inductive EmbeddingModelType where
  | MobileNet : EmbeddingModelType
  | CLIP : EmbeddingModelType
deriving DecidableEq, Repr

/-- The string form of a model type, as it appears in payloads. -/
def EmbeddingModelType.asString : EmbeddingModelType → String
  | .MobileNet => "MobileNet"
  | .CLIP => "CLIP"

/-- The record returned by `getModelInfo`. -/
structure ModelInfo where
  collectionName : String
  vectorSize : Nat
deriving DecidableEq, Repr

/-- Mapping `getModelInfo` from `src/utils/embedding-node.ts` (lines 64–77):
MobileNet ↦ ("mobilenet_embeddings", 1280), CLIP ↦ ("clip_embeddings", 768). -/
def getModelInfo : EmbeddingModelType → ModelInfo
  | .MobileNet => { collectionName := "mobilenet_embeddings", vectorSize := 1280 }
  | .CLIP => { collectionName := "clip_embeddings", vectorSize := 768 }

/-- Function `generateEmbedding` from `src/utils/embedding-node.ts` (lines 26–62),
parametric in its black boxes: `preprocess` is the sharp
resize-224×224-contain step producing a tensor (abstract type `T`),
`infer` is the MobileNet `model.infer(·, true)` call and `clip` is
`getClipEmbedding` (the Replicate CLIP endpoint).  For CLIP the base64
image goes straight to the CLIP endpoint; for MobileNet it is
preprocessed and then inferred.  (The try/catch in the source only
re-throws, so it is transparent here.) -/
def generateEmbedding {T : Type} (preprocess : String → T) (infer : T → List ℚ)
    (clip : String → List ℚ) (base64Image : String)
    (modelType : EmbeddingModelType) : List ℚ :=
  match modelType with
  | .CLIP => clip base64Image
  | .MobileNet => infer (preprocess base64Image)

/-! Qdrant store model.

The code talks to Qdrant through `getCollections`, `createCollection`,
`upsert` and `search`.  We model the store as a list of collections,
each holding a declared vector size, a distance metric string and a
list of points.  Point ids are generic (`ι`): the fixed-collection
handler uses numeric `Date.now()` ids, the model-aware handler uses
string ids. -/

/-- A Qdrant point: id, vector, payload (string key/value pairs). -/
structure QPoint (ι : Type) where
  id : ι
  vector : List ℚ
  payload : List (String × String)
deriving DecidableEq, Repr

/-- A Qdrant collection: name, declared vector size, distance metric,
stored points. -/
structure QCollection (ι : Type) where
  name : String
  size : Nat
  distance : String
  points : List (QPoint ι)
deriving DecidableEq, Repr

/-- The Qdrant store: its collections. -/
abbrev QdrantState (ι : Type) := List (QCollection ι)

/-- Does a collection with this name exist?  (Models the
`getCollections` + `some (collection.name === collectionName)` check.) -/
def collectionExists {ι : Type} (st : QdrantState ι) (name : String) : Bool :=
  st.any (fun c => c.name == name)

/-- Look a collection up by name. -/
def findCollection {ι : Type} (st : QdrantState ι) (name : String) :
    Option (QCollection ι) :=
  st.find? (fun c => c.name == name)

/-- Qdrant `upsert` point semantics: a point whose id is already present
overwrites the stored point; a fresh id is appended. -/
def upsertPoint {ι : Type} [DecidableEq ι] :
    List (QPoint ι) → QPoint ι → List (QPoint ι)
  | [], p => [p]
  | q :: qs, p => if q.id = p.id then p :: qs else q :: upsertPoint qs p

/-- Replace the points of the named collection. -/
def setPoints {ι : Type} (st : QdrantState ι) (name : String)
    (ps : List (QPoint ι)) : QdrantState ι :=
  st.map (fun c => if c.name == name then { c with points := ps } else c)

/-- Operation `qdrant.upsert(collectionName, points [p])` against the store:
fails when the collection is absent, fails with Qdrant's generic
"Bad Request" when the vector length differs from the collection's
declared size (the remote-side check the spec describes), and otherwise
upserts by id. -/
def qdrantUpsert {ι : Type} [DecidableEq ι] (st : QdrantState ι) (name : String)
    (p : QPoint ι) : Except String (QdrantState ι) :=
  match findCollection st name with
  | none => .error "Not Found"
  | some c =>
    if p.vector.length ≠ c.size then .error "Bad Request"
    else .ok (setPoints st name (upsertPoint c.points p))

/-- A search hit: id, similarity score, payload. -/
structure ScoredPoint (ι : Type) where
  id : ι
  score : ℚ
  payload : List (String × String)
deriving DecidableEq, Repr

/-- Insert a scored point into a list sorted by descending score. -/
def insertByScore {ι : Type} (p : ScoredPoint ι) :
    List (ScoredPoint ι) → List (ScoredPoint ι)
  | [] => [p]
  | q :: qs => if q.score ≤ p.score then p :: q :: qs else q :: insertByScore p qs

/-- Sort scored points by descending score. -/
def sortByScoreDesc {ι : Type} : List (ScoredPoint ι) → List (ScoredPoint ι)
  | [] => []
  | p :: ps => insertByScore p (sortByScoreDesc ps)

/-- Operation `qdrant.search(collectionName, vector, limit)` against the store:
fails when the collection is absent; otherwise scores every stored point
against the query vector with the store's (black-box) scoring function
and returns the top `limit` hits by descending score. -/
def qdrantSearch {ι : Type} (score : List ℚ → List ℚ → ℚ) (st : QdrantState ι)
    (name : String) (v : List ℚ) (limit : Nat) :
    Except String (List (ScoredPoint ι)) :=
  match findCollection st name with
  | none => .error ("Collection " ++ name ++ " not found")
  | some c =>
    .ok ((sortByScoreDesc (c.points.map
      (fun p => { id := p.id, score := score v p.vector, payload := p.payload }))).take limit)

/-- The model-aware `ensureCollection(collectionName, vectorSize)`:
if a collection with the name exists it only fetches and logs it
(no dimension check, no change); otherwise it creates the collection
with the given size and distance "Cosine". -/
def ensureCollection {ι : Type} (st : QdrantState ι) (collectionName : String)
    (vectorSize : Nat) : QdrantState ι :=
  if collectionExists st collectionName then st
  else st ++ [{ name := collectionName, size := vectorSize,
                distance := "Cosine", points := [] }]

/-! Request and response model. -/

/-- Semantics of the JavaScript `s.startsWith(pre)` check: `pre` is a
prefix of `s`.  (Defined over the character lists so that it evaluates
on concrete strings.) -/
def stringStartsWith (s pre : String) : Bool :=
  pre.data.isPrefixOf s.data

/-- The `File` extracted from the multipart form data. -/
structure ReqFile where
  name : String
  type : String
  size : Nat
  /-- base64 content of the file (`buffer.toString("base64")`). -/
  data : String
deriving DecidableEq, Repr

/-- A `NextResponse.json` value of an ingest handler: either the success
body or a structured `\x7b error \x7d` body with its HTTP status. -/
inductive AddResponse where
  | ok (id : String) (uuid : String) : AddResponse
  | err (status : Nat) (msg : String) : AddResponse
deriving DecidableEq, Repr

/-- HTTP status of an ingest response (`NextResponse.json` defaults to 200). -/
def AddResponse.status : AddResponse → Nat
  | .ok _ _ => 200
  | .err s _ => s

/-- Is the response a structured error body? -/
def AddResponse.isError : AddResponse → Bool
  | .ok _ _ => false
  | .err _ _ => true

/-! Model-aware add-to-collection handler.

The `POST` handler that reads a `modelType` from the form, validates the
file's MIME type and size, calls `getModelInfo`, `ensureCollection`,
`generateEmbedding`, validates the embedding length client-side, builds a
point with id `point_<Date.now()>_<rand>` and upserts it.

Black boxes are parameters: `embed` is `generateEmbedding` (which can
reject), `netFail n` is the network-level outcome of the n-th
`qdrant.upsert` attempt (`some e` = the attempt fails with error `e`
before reaching the store), `now` is `Date.now()`, `rand` is
`Math.floor(Math.random() * 1000)` and `uuid` is `crypto.randomUUID()`.
The result records the response, the resulting store state and how many
times the embedding backend and the store's upsert were invoked. -/

/-- Result of one run of an ingest handler. -/
structure AddResult (ι : Type) where
  response : AddResponse
  state : QdrantState ι
  /-- number of `generateEmbedding` invocations performed -/
  embedCalls : Nat
  /-- number of `qdrant.upsert` network calls attempted -/
  upsertCalls : Nat
  /-- the point passed to `qdrant.upsert`, when one was -/
  upserted : Option (QPoint ι)
deriving Repr

/-- The string point id `point_<now>_<rand>`. -/
def pointIdOf (now rand : Nat) : String :=
  "point_" ++ toString now ++ "_" ++ toString rand

/-- The model-aware add-to-collection `POST` handler.  Follows the
source's control flow: missing file → 400; non-`image/*` MIME type →
400; size over 10MB → 400; then `getModelInfo`, `ensureCollection`,
`generateEmbedding` (failure → 500 via the outer catch); then the
client-side embedding-length validation (mismatch throws before any
upsert → 500); then the upsert (a network failure is logged and
re-thrown → 500).  (The `Array.isArray` and NaN checks of the source are
identically true in this model, where an embedding is a `List ℚ`.) -/
def addToCollectionPOST (st : QdrantState String) (file? : Option ReqFile)
    (modelType : EmbeddingModelType)
    (embed : String → EmbeddingModelType → Except String (List ℚ))
    (netFail : Nat → Option String) (now rand : Nat) (uuid : String) :
    AddResult String :=
  match file? with
  | none =>
    { response := .err 400 "No image file provided", state := st,
      embedCalls := 0, upsertCalls := 0, upserted := none }
  | some file =>
    if ¬ (stringStartsWith file.type "image/") then
      { response := .err 400 "Invalid file type. Please upload an image.",
        state := st, embedCalls := 0, upsertCalls := 0, upserted := none }
    else if file.size > 10 * 1024 * 1024 then
      { response := .err 400 "File size too large. Maximum size is 10MB.",
        state := st, embedCalls := 0, upsertCalls := 0, upserted := none }
    else
      let modelInfo := getModelInfo modelType
      let st1 := ensureCollection st modelInfo.collectionName modelInfo.vectorSize
      match embed file.data modelType with
      | .error e =>
        { response := .err 500 ("Error processing image: " ++ e), state := st1,
          embedCalls := 1, upsertCalls := 0, upserted := none }
      | .ok embedding =>
        if embedding.length ≠ modelInfo.vectorSize then
          { response := .err 500 ("Error processing image: Embedding size mismatch. Expected "
              ++ toString modelInfo.vectorSize ++ ", got " ++ toString embedding.length),
            state := st1, embedCalls := 1, upsertCalls := 0, upserted := none }
        else
          let point : QPoint String :=
            { id := pointIdOf now rand, vector := embedding,
              payload := [("filename", file.name),
                          ("modelType", modelType.asString), ("uuid", uuid)] }
          match netFail 0 with
          | some e =>
            { response := .err 500 ("Error processing image: " ++ e), state := st1,
              embedCalls := 1, upsertCalls := 1, upserted := some point }
          | none =>
            match qdrantUpsert st1 modelInfo.collectionName point with
            | .error e =>
              { response := .err 500 ("Error processing image: " ++ e), state := st1,
                embedCalls := 1, upsertCalls := 1, upserted := some point }
            | .ok st2 =>
              { response := .ok point.id uuid, state := st2,
                embedCalls := 1, upsertCalls := 1, upserted := some point }

/-! Fixed-collection add-to-collection handler.

`src/app/api/add-to-collection/route.ts`: collection name and size are
the constants `image_vector_embeddings_20250310` / 1280, the point id is
the bare `Date.now()` value, and the handler performs no MIME-type, size
or embedding-length validation before the upsert. -/

/-- Constant `COLLECTION_NAME` from `src/app/api/add-to-collection/route.ts`. -/
def COLLECTION_NAME : String := "image_vector_embeddings_20250310"

/-- Constant `VECTOR_SIZE` from `src/app/api/add-to-collection/route.ts`. -/
def VECTOR_SIZE : Nat := 1280

/-- The fixed-collection add-to-collection `POST` handler
(`src/app/api/add-to-collection/route.ts` lines 43–94): first
`ensureCollection()` (constants, no arguments), then the missing-file
check, then `generateEmbedding` and the upsert with id `Date.now()` —
with no validation of the embedding's length before the network write. -/
def addToCollectionFixedPOST (st : QdrantState Nat) (file? : Option ReqFile)
    (embed : String → Except String (List ℚ)) (netFail : Nat → Option String)
    (now : Nat) : AddResult Nat :=
  let st1 := ensureCollection st COLLECTION_NAME VECTOR_SIZE
  match file? with
  | none =>
    { response := .err 400 "No image file provided", state := st1,
      embedCalls := 0, upsertCalls := 0, upserted := none }
  | some file =>
    match embed file.data with
    | .error e =>
      { response := .err 500 e, state := st1,
        embedCalls := 1, upsertCalls := 0, upserted := none }
    | .ok embedding =>
      let point : QPoint Nat :=
        { id := now, vector := embedding, payload := [("filename", file.name)] }
      match netFail 0 with
      | some e =>
        { response := .err 500 e, state := st1,
          embedCalls := 1, upsertCalls := 1, upserted := some point }
      | none =>
        match qdrantUpsert st1 COLLECTION_NAME point with
        | .error e =>
          { response := .err 500 e, state := st1,
            embedCalls := 1, upsertCalls := 1, upserted := some point }
        | .ok st2 =>
          { response := .ok "" "", state := st2,
            embedCalls := 1, upsertCalls := 1, upserted := some point }

/-! Compare handler.

The model-aware compare `POST` handler: reads the file and `modelType`,
generates the embedding, searches the model's collection with
`limit: 1` and answers `\x7b similarity: results[0]?.score ?? 0 \x7d`;
every thrown error (including a missing collection) becomes a 500 with
the error's message. -/

/-- A compare response: the similarity body or a structured error. -/
inductive CompareResponse where
  | ok (similarity : ℚ) : CompareResponse
  | err (status : Nat) (msg : String) : CompareResponse
deriving DecidableEq, Repr

/-- The model-aware compare `POST` handler.  `score` is the remote
store's (black-box) scoring function. -/
def comparePOST (score : List ℚ → List ℚ → ℚ) (st : QdrantState String)
    (file? : Option ReqFile) (modelType : EmbeddingModelType)
    (embed : String → EmbeddingModelType → Except String (List ℚ)) :
    CompareResponse :=
  match file? with
  | none => .err 400 "No image file provided"
  | some file =>
    let modelInfo := getModelInfo modelType
    match embed file.data modelType with
    | .error e => .err 500 e
    | .ok embedding =>
      match qdrantSearch score st modelInfo.collectionName embedding 1 with
      | .error e => .err 500 e
      | .ok results =>
        .ok ((results.head?.map (fun r => r.score)).getD 0)

/-! Cosine similarity.

The browser-side comparison utility (a single loop over `a.length`
accumulating the dot product and the two squared norms, then
`dot / (Math.sqrt(normA) * Math.sqrt(normB))`).  Modelled over `ℝ`
(the idealisation of the source's floating-point arithmetic); the
source indexes `b` by positions of `a` and is only used on
equal-length vectors. -/

/-- Function `cosineSimilarity(a, b)`. -/
noncomputable def cosineSimilarity (a b : List ℝ) : ℝ :=
  let dotProduct := ∑ i ∈ Finset.range a.length, a.getD i 0 * b.getD i 0
  let normA := ∑ i ∈ Finset.range a.length, a.getD i 0 * a.getD i 0
  let normB := ∑ i ∈ Finset.range a.length, b.getD i 0 * b.getD i 0
  dotProduct / (Real.sqrt normA * Real.sqrt normB)

/-! Helper lemmas about the store model. -/

theorem collectionExists_eq_isSome {ι : Type} (st : QdrantState ι) (n : String) :
    collectionExists st n = (findCollection st n).isSome := by
  induction st with
  | nil => rfl
  | cons c cs ih =>
    by_cases h : c.name == n
    · simp [collectionExists, findCollection,
        List.find?_cons_of_pos (p := fun c : QCollection ι => c.name == n) _ h, h]
    · have h' : ¬ (c.name == n) = true := by simpa using h
      simp only [collectionExists, List.any_cons, findCollection] at *
      rw [List.find?_cons_of_neg (p := fun c : QCollection ι => c.name == n) _ h']
      simp [h, ih]

theorem findCollection_name_mem {ι : Type} {st : QdrantState ι} {n : String}
    {c : QCollection ι} (h : findCollection st n = some c) :
    c.name = n ∧ c ∈ st := by
  refine ⟨?_, List.mem_of_find?_eq_some h⟩
  have hp := List.find?_some h
  simpa using hp

theorem ensureCollection_of_exists {ι : Type} {st : QdrantState ι} {n : String}
    {c : QCollection ι} (h : findCollection st n = some c) (k : Nat) :
    ensureCollection st n k = st := by
  unfold ensureCollection
  rw [collectionExists_eq_isSome, h]
  rfl

theorem ensureCollection_of_absent {ι : Type} {st : QdrantState ι} {n : String}
    (h : findCollection st n = none) (k : Nat) :
    ensureCollection st n k =
      st ++ [{ name := n, size := k, distance := "Cosine", points := [] }] := by
  unfold ensureCollection
  rw [collectionExists_eq_isSome, h]
  rfl

theorem findCollection_append_of_none {ι : Type} {st : QdrantState ι} {n : String}
    (h : findCollection st n = none) (l : QdrantState ι) :
    findCollection (st ++ l) n = findCollection l n := by
  unfold findCollection at *
  rw [List.find?_append, h]
  rfl

theorem findCollection_ensureCollection {ι : Type} (st : QdrantState ι) (n : String)
    (k : Nat) :
    ∃ c, findCollection (ensureCollection st n k) n = some c ∧
      ((findCollection st n = some c) ∨
        (findCollection st n = none ∧
          c = { name := n, size := k, distance := "Cosine", points := [] })) := by
  cases h : findCollection st n with
  | some c =>
    exact ⟨c, by rw [ensureCollection_of_exists h]; exact h, Or.inl rfl⟩
  | none =>
    refine ⟨_, ?_, Or.inr ⟨rfl, rfl⟩⟩
    rw [ensureCollection_of_absent h, findCollection_append_of_none h]
    unfold findCollection
    exact List.find?_cons_of_pos (p := fun c : QCollection ι => c.name == n) _ (by simp)

theorem findCollection_setPoints {ι : Type} (st : QdrantState ι) (n : String)
    (ps : List (QPoint ι)) :
    findCollection (setPoints st n ps) n =
      (findCollection st n).map (fun c => { c with points := ps }) := by
  induction st with
  | nil => rfl
  | cons c cs ih =>
    simp only [setPoints, List.map_cons] at *
    by_cases h : c.name == n
    · rw [if_pos h]
      unfold findCollection
      rw [List.find?_cons_of_pos (p := fun c : QCollection ι => c.name == n) _ h,
        List.find?_cons_of_pos (p := fun c : QCollection ι => c.name == n) _ (by simpa using h)]
      rfl
    · have h' : ¬ (c.name == n) = true := by simpa using h
      rw [if_neg h']
      unfold findCollection at *
      rw [List.find?_cons_of_neg (p := fun c : QCollection ι => c.name == n) _ h',
        List.find?_cons_of_neg (p := fun c : QCollection ι => c.name == n) _ h']
      exact ih

theorem mem_setPoints {ι : Type} {st : QdrantState ι} {n : String}
    {ps : List (QPoint ι)} {c' : QCollection ι} (h : c' ∈ setPoints st n ps) :
    ∃ c ∈ st, c'.name = c.name ∧ c'.size = c.size := by
  unfold setPoints at h
  obtain ⟨c, hc, hmap⟩ := List.mem_map.mp h
  refine ⟨c, hc, ?_⟩
  by_cases hn : (c.name == n) = true
  · rw [if_pos hn] at hmap
    cases hmap
    exact ⟨rfl, rfl⟩
  · rw [if_neg hn] at hmap
    cases hmap
    exact ⟨rfl, rfl⟩

theorem mem_ensureCollection {ι : Type} {st : QdrantState ι} {n : String} {k : Nat}
    {c' : QCollection ι} (h : c' ∈ ensureCollection st n k) :
    c' ∈ st ∨ c' = { name := n, size := k, distance := "Cosine", points := [] } := by
  unfold ensureCollection at h
  split at h
  · exact Or.inl h
  · rcases List.mem_append.mp h with h | h
    · exact Or.inl h
    · exact Or.inr (by simpa using h)

theorem sizes_setPoints_ensure {ι : Type} {st : QdrantState ι} {n : String} {k : Nat}
    (hst : ∀ c ∈ st, c.name = n → c.size = k) (ps : List (QPoint ι)) :
    ∀ c' ∈ setPoints (ensureCollection st n k) n ps, c'.name = n → c'.size = k := by
  intro c' hc' hname
  obtain ⟨c, hc, hnm, hsz⟩ := mem_setPoints hc'
  rcases mem_ensureCollection hc with h | rfl
  · rw [hsz]
    exact hst c h (by rw [← hnm, hname])
  · rw [hsz]

theorem exists_id_upsertPoint {ι : Type} [DecidableEq ι] (ps : List (QPoint ι))
    (p : QPoint ι) : ∃ q ∈ upsertPoint ps p, q.id = p.id := by
  induction ps with
  | nil => exact ⟨p, by simp [upsertPoint], rfl⟩
  | cons q qs ih =>
    unfold upsertPoint
    by_cases h : q.id = p.id
    · exact ⟨p, by simp [h], rfl⟩
    · obtain ⟨r, hr, hid⟩ := ih
      exact ⟨r, by simp [h, hr], hid⟩

theorem length_upsertPoint_of_exists {ι : Type} [DecidableEq ι]
    {ps : List (QPoint ι)} {p : QPoint ι} (h : ∃ q ∈ ps, q.id = p.id) :
    (upsertPoint ps p).length = ps.length := by
  induction ps with
  | nil => simp at h
  | cons q qs ih =>
    unfold upsertPoint
    by_cases hq : q.id = p.id
    · simp [hq]
    · obtain ⟨r, hr, hid⟩ := h
      rcases List.mem_cons.mp hr with rfl | hr'
      · exact absurd hid hq
      · simp [hq, ih ⟨r, hr', hid⟩]

theorem find?_upsertPoint {ι : Type} [DecidableEq ι] (ps : List (QPoint ι))
    (p : QPoint ι) :
    (upsertPoint ps p).find? (fun q => q.id == p.id) = some p := by
  induction ps with
  | nil =>
    unfold upsertPoint
    exact List.find?_cons_of_pos (p := fun q : QPoint ι => q.id == p.id) _ (by simp)
  | cons q qs ih =>
    unfold upsertPoint
    by_cases h : q.id = p.id
    · rw [if_pos h]
      exact List.find?_cons_of_pos (p := fun q : QPoint ι => q.id == p.id) _ (by simp)
    · rw [if_neg h]
      rw [List.find?_cons_of_neg (p := fun q : QPoint ι => q.id == p.id) _ (by simpa using h)]
      exact ih

/-- Characterization of a fully successful run of the model-aware ingest
handler: valid file, embedding of the declared length, no network
failure, every same-named collection already at the declared size. -/
theorem addToCollectionPOST_success (st : QdrantState String) (file : ReqFile)
    (modelType : EmbeddingModelType)
    (embed : String → EmbeddingModelType → Except String (List ℚ))
    (netFail : Nat → Option String) (now rand : Nat) (uuid : String) (v : List ℚ)
    (htype : stringStartsWith file.type "image/" = true)
    (hsize : file.size ≤ 10 * 1024 * 1024)
    (hv : embed file.data modelType = .ok v)
    (hlen : v.length = (getModelInfo modelType).vectorSize)
    (hnet : netFail 0 = none)
    (hst : ∀ c ∈ st, c.name = (getModelInfo modelType).collectionName →
      c.size = (getModelInfo modelType).vectorSize) :
    ∃ c, findCollection (ensureCollection st (getModelInfo modelType).collectionName
          (getModelInfo modelType).vectorSize)
        (getModelInfo modelType).collectionName = some c ∧
      c.size = (getModelInfo modelType).vectorSize ∧
      addToCollectionPOST st (some file) modelType embed netFail now rand uuid =
        { response := .ok (pointIdOf now rand) uuid,
          state := setPoints (ensureCollection st (getModelInfo modelType).collectionName
              (getModelInfo modelType).vectorSize) (getModelInfo modelType).collectionName
            (upsertPoint c.points
              { id := pointIdOf now rand, vector := v,
                payload := [("filename", file.name),
                            ("modelType", modelType.asString), ("uuid", uuid)] }),
          embedCalls := 1, upsertCalls := 1,
          upserted := some { id := pointIdOf now rand, vector := v,
                             payload := [("filename", file.name),
                                         ("modelType", modelType.asString),
                                         ("uuid", uuid)] } } := by
  obtain ⟨c, hc, hcase⟩ := findCollection_ensureCollection st
    (getModelInfo modelType).collectionName (getModelInfo modelType).vectorSize
  have hcsize : c.size = (getModelInfo modelType).vectorSize := by
    rcases hcase with h | ⟨h, hceq⟩
    · exact hst c (findCollection_name_mem h).2 (findCollection_name_mem h).1
    · rw [hceq]
  refine ⟨c, hc, hcsize, ?_⟩
  have hsize' : ¬ file.size > 10 * 1024 * 1024 := by omega
  simp only [addToCollectionPOST, htype, Bool.not_true, hsize', hv, hnet, hlen,
    qdrantUpsert, hc]
  simp [hlen, hcsize]

/-- Characterization of a fully successful run of the fixed-collection
ingest handler. -/
theorem addToCollectionFixedPOST_success (st : QdrantState Nat) (file : ReqFile)
    (embed : String → Except String (List ℚ)) (netFail : Nat → Option String)
    (now : Nat) (v : List ℚ)
    (hv : embed file.data = .ok v) (hlen : v.length = VECTOR_SIZE)
    (hnet : netFail 0 = none)
    (hst : ∀ c ∈ st, c.name = COLLECTION_NAME → c.size = VECTOR_SIZE) :
    ∃ c, findCollection (ensureCollection st COLLECTION_NAME VECTOR_SIZE)
        COLLECTION_NAME = some c ∧
      c.size = VECTOR_SIZE ∧
      addToCollectionFixedPOST st (some file) embed netFail now =
        { response := .ok "" "",
          state := setPoints (ensureCollection st COLLECTION_NAME VECTOR_SIZE)
            COLLECTION_NAME (upsertPoint c.points
              { id := now, vector := v, payload := [("filename", file.name)] }),
          embedCalls := 1, upsertCalls := 1,
          upserted := some { id := now, vector := v,
                             payload := [("filename", file.name)] } } := by
  obtain ⟨c, hc, hcase⟩ := findCollection_ensureCollection st COLLECTION_NAME VECTOR_SIZE
  have hcsize : c.size = VECTOR_SIZE := by
    rcases hcase with h | ⟨h, hceq⟩
    · exact hst c (findCollection_name_mem h).2 (findCollection_name_mem h).1
    · rw [hceq]
  refine ⟨c, hc, hcsize, ?_⟩
  simp only [addToCollectionFixedPOST, hv, hnet, qdrantUpsert, hc]
  simp [hlen, hcsize]

/-! Claim theorems. -/

/-- C4: for every image and fixed model, the embedding produced by
preprocessing the image and running the model's embedder has length
exactly the model's declared dimensionality (1280 for MobileNet, 768 for
CLIP, as declared by `getModelInfo`), given that the black-box models
return vectors of their documented lengths. -/
theorem generateEmbedding_length {T : Type} (preprocess : String → T)
    (infer : T → List ℚ) (clip : String → List ℚ)
    (hinfer : ∀ t, (infer t).length = 1280)
    (hclip : ∀ s, (clip s).length = 768)
    (base64Image : String) (modelType : EmbeddingModelType) :
    (generateEmbedding preprocess infer clip base64Image modelType).length =
      (getModelInfo modelType).vectorSize := by
  cases modelType with
  | MobileNet => simpa [generateEmbedding, getModelInfo] using hinfer (preprocess base64Image)
  | CLIP => simpa [generateEmbedding, getModelInfo] using hclip base64Image

/-- Witness for C4 at a concrete model and image. -/
theorem generateEmbedding_length_witness :
    (generateEmbedding (fun s => s) (fun _ => List.replicate 1280 (0:ℚ))
        (fun _ => List.replicate 768 (0:ℚ)) "img" .MobileNet).length =
      (getModelInfo .MobileNet).vectorSize :=
  generateEmbedding_length _ _ _ (fun _ => by rw [List.length_replicate])
    (fun _ => by rw [List.length_replicate]) "img" .MobileNet

/-- C7: the model-to-collection mapping gives every model a distinct
collection name and a distinct fixed dimension, so vectors of
incompatible dimensionality never target the same collection. -/
theorem modelCollections_distinct (m₁ m₂ : EmbeddingModelType) (h : m₁ ≠ m₂) :
    (getModelInfo m₁).collectionName ≠ (getModelInfo m₂).collectionName ∧
    (getModelInfo m₁).vectorSize ≠ (getModelInfo m₂).vectorSize := by
  cases m₁ <;> cases m₂ <;>
    first
    | exact absurd rfl h
    | exact ⟨by decide, by decide⟩

/-- Witness for C7 at the two concrete models. -/
theorem modelCollections_distinct_witness :
    (getModelInfo .MobileNet).collectionName ≠ (getModelInfo .CLIP).collectionName ∧
    (getModelInfo .MobileNet).vectorSize ≠ (getModelInfo .CLIP).vectorSize :=
  modelCollections_distinct .MobileNet .CLIP (by decide)

/-- C8: for every non-zero vector, `cosineSimilarity` of the vector with
itself is exactly 1 (in the real-valued idealisation of the
floating-point arithmetic). -/
theorem cosineSimilarity_self (v : List ℝ) (h : ∃ x ∈ v, x ≠ 0) :
    cosineSimilarity v v = 1 := by
  obtain ⟨x, hxv, hx⟩ := h
  obtain ⟨i, hi, hvi⟩ := List.getElem_of_mem hxv
  have hpos : 0 < ∑ j ∈ Finset.range v.length, v.getD j 0 * v.getD j 0 := by
    refine Finset.sum_pos' (fun j _ => mul_self_nonneg _) ⟨i, Finset.mem_range.mpr hi, ?_⟩
    rw [List.getD_eq_getElem v 0 hi, hvi]
    exact mul_self_pos.mpr hx
  show (∑ j ∈ Finset.range v.length, v.getD j 0 * v.getD j 0) /
      (Real.sqrt (∑ j ∈ Finset.range v.length, v.getD j 0 * v.getD j 0) *
        Real.sqrt (∑ j ∈ Finset.range v.length, v.getD j 0 * v.getD j 0)) = 1
  rw [Real.mul_self_sqrt hpos.le, div_self hpos.ne']

/-- Witness for C8 at the concrete vector `[3]`. -/
theorem cosineSimilarity_self_witness : cosineSimilarity [(3:ℝ)] [(3:ℝ)] = 1 :=
  cosineSimilarity_self [(3:ℝ)] ⟨3, by simp, by norm_num⟩

/-- C9: an ingest request whose file is not an `image/*` MIME type or
exceeds 10485760 bytes gets a structured 400 error, with no embedding
generation and no upsert performed. -/
theorem addToCollection_rejects_invalid_file (st : QdrantState String)
    (file : ReqFile) (modelType : EmbeddingModelType)
    (embed : String → EmbeddingModelType → Except String (List ℚ))
    (netFail : Nat → Option String) (now rand : Nat) (uuid : String)
    (h : ¬ stringStartsWith file.type "image/" = true ∨ file.size > 10485760) :
    (addToCollectionPOST st (some file) modelType embed netFail now rand uuid).response.status
        = 400 ∧
    (addToCollectionPOST st (some file) modelType embed netFail now rand uuid).response.isError
        = true ∧
    (addToCollectionPOST st (some file) modelType embed netFail now rand uuid).embedCalls = 0 ∧
    (addToCollectionPOST st (some file) modelType embed netFail now rand uuid).upsertCalls = 0 := by
  by_cases ht : stringStartsWith file.type "image/" = true
  · have hs : file.size > 10 * 1024 * 1024 := by
      rcases h with h | h
      · exact absurd ht h
      · omega
    simp [addToCollectionPOST, ht, hs, AddResponse.status, AddResponse.isError]
  · simp [addToCollectionPOST, ht, AddResponse.status, AddResponse.isError]

/-- Witness for C9 at a concrete non-image upload. -/
theorem addToCollection_rejects_invalid_file_witness :
    (addToCollectionPOST [] (some ⟨"a.txt", "text/plain", 3, "eA=="⟩) .MobileNet
        (fun _ _ => .ok []) (fun _ => none) 0 0 "u").response.status = 400 ∧
    (addToCollectionPOST [] (some ⟨"a.txt", "text/plain", 3, "eA=="⟩) .MobileNet
        (fun _ _ => .ok []) (fun _ => none) 0 0 "u").response.isError = true ∧
    (addToCollectionPOST [] (some ⟨"a.txt", "text/plain", 3, "eA=="⟩) .MobileNet
        (fun _ _ => .ok []) (fun _ => none) 0 0 "u").embedCalls = 0 ∧
    (addToCollectionPOST [] (some ⟨"a.txt", "text/plain", 3, "eA=="⟩) .MobileNet
        (fun _ _ => .ok []) (fun _ => none) 0 0 "u").upsertCalls = 0 :=
  addToCollection_rejects_invalid_file [] ⟨"a.txt", "text/plain", 3, "eA=="⟩
    .MobileNet (fun _ _ => .ok []) (fun _ => none) 0 0 "u" (Or.inl (by decide))

/-- C1 counterexample: querying an existing but empty reference
collection does not fail with a `NoReferenceDataError`; the compare
handler answers HTTP success with similarity score 0
(`results[0]?.score ?? 0`). -/
theorem compare_emptyCollection_returnsZero :
    comparePOST (fun _ _ => 0)
      [{ name := "mobilenet_embeddings", size := 1280, distance := "Cosine",
         points := [] }]
      (some ⟨"cat.jpg", "image/jpeg", 4, "AAAA"⟩) .MobileNet
      (fun _ _ => .ok [1]) = .ok 0 := by
  rfl

/-- C1 amended: querying an empty reference collection returns a success
response with similarity 0, and querying an absent collection returns a
generic 500 error carrying the store's message — in neither case a
`NoReferenceDataError`. -/
theorem comparePOST_empty_or_missing (score : List ℚ → List ℚ → ℚ)
    (st : QdrantState String) (file : ReqFile) (modelType : EmbeddingModelType)
    (embed : String → EmbeddingModelType → Except String (List ℚ)) (v : List ℚ)
    (hv : embed file.data modelType = .ok v)
    (hpts : ∀ c, findCollection st (getModelInfo modelType).collectionName = some c →
      c.points = []) :
    comparePOST score st (some file) modelType embed =
      match findCollection st (getModelInfo modelType).collectionName with
      | none => .err 500 ("Collection " ++ (getModelInfo modelType).collectionName
          ++ " not found")
      | some _ => .ok 0 := by
  cases hfc : findCollection st (getModelInfo modelType).collectionName with
  | none => simp [comparePOST, hv, qdrantSearch, hfc]
  | some c => simp [comparePOST, hv, qdrantSearch, hfc, hpts c hfc, sortByScoreDesc]

/-- Witness for the amended C1 at a concrete empty CLIP collection. -/
theorem comparePOST_empty_or_missing_witness :
    comparePOST (fun _ _ => 0)
      [{ name := "clip_embeddings", size := 768, distance := "Cosine", points := [] }]
      (some ⟨"cat.jpg", "image/jpeg", 4, "AAAA"⟩) .CLIP
      (fun _ _ => .ok [1]) = .ok 0 :=
  (comparePOST_empty_or_missing (fun _ _ => 0)
    [{ name := "clip_embeddings", size := 768, distance := "Cosine", points := [] }]
    ⟨"cat.jpg", "image/jpeg", 4, "AAAA"⟩ .CLIP (fun _ _ => .ok [1]) [1] rfl
    (fun c hc => (Option.some.inj hc) ▸ rfl)).trans rfl

/-- C3 counterexample: the fixed-collection ingest handler has no
client-side dimension validation: a 3-dimensional embedding against the
1280-dimensional collection is sent to the store (one upsert network
call is attempted) and the failure is the remote's generic
"Bad Request", not a client-side dimension-mismatch error raised before
the network write. -/
theorem fixedPOST_no_dimension_validation :
    (addToCollectionFixedPOST [] (some ⟨"cat.jpg", "image/jpeg", 4, "AAAA"⟩)
        (fun _ => .ok [1, 2, 3]) (fun _ => none) 7).upsertCalls = 1 ∧
    (addToCollectionFixedPOST [] (some ⟨"cat.jpg", "image/jpeg", 4, "AAAA"⟩)
        (fun _ => .ok [1, 2, 3]) (fun _ => none) 7).response =
      .err 500 "Bad Request" := by
  constructor <;> rfl

/-- C3 amended: the model-aware ingest handler does validate the
embedding length client-side — a generated embedding whose length
differs from the model's declared dimension produces the
size-mismatch 500 error and no upsert network call is attempted.
(The fixed-collection handler performs no such validation.) -/
theorem addToCollection_validates_dimension (st : QdrantState String)
    (file : ReqFile) (modelType : EmbeddingModelType)
    (embed : String → EmbeddingModelType → Except String (List ℚ))
    (netFail : Nat → Option String) (now rand : Nat) (uuid : String) (v : List ℚ)
    (htype : stringStartsWith file.type "image/" = true)
    (hsize : file.size ≤ 10 * 1024 * 1024)
    (hv : embed file.data modelType = .ok v)
    (hlen : v.length ≠ (getModelInfo modelType).vectorSize) :
    (addToCollectionPOST st (some file) modelType embed netFail now rand uuid).response =
      .err 500 ("Error processing image: Embedding size mismatch. Expected "
        ++ toString (getModelInfo modelType).vectorSize ++ ", got "
        ++ toString v.length) ∧
    (addToCollectionPOST st (some file) modelType embed netFail now rand uuid).upsertCalls
      = 0 ∧
    (addToCollectionPOST st (some file) modelType embed netFail now rand uuid).upserted
      = none := by
  have hsize' : ¬ file.size > 10 * 1024 * 1024 := by omega
  simp [addToCollectionPOST, htype, hsize', hv, hlen]

/-- Witness for the amended C3 at a concrete 3-dimensional embedding. -/
theorem addToCollection_validates_dimension_witness :
    (addToCollectionPOST [] (some ⟨"cat.jpg", "image/jpeg", 4, "AAAA"⟩) .MobileNet
        (fun _ _ => .ok [1, 2, 3]) (fun _ => none) 1 0 "u").response =
      .err 500 ("Error processing image: Embedding size mismatch. Expected "
        ++ toString (getModelInfo EmbeddingModelType.MobileNet).vectorSize ++ ", got "
        ++ toString ([(1:ℚ), 2, 3]).length) ∧
    (addToCollectionPOST [] (some ⟨"cat.jpg", "image/jpeg", 4, "AAAA"⟩) .MobileNet
        (fun _ _ => .ok [1, 2, 3]) (fun _ => none) 1 0 "u").upsertCalls = 0 ∧
    (addToCollectionPOST [] (some ⟨"cat.jpg", "image/jpeg", 4, "AAAA"⟩) .MobileNet
        (fun _ _ => .ok [1, 2, 3]) (fun _ => none) 1 0 "u").upserted = none :=
  addToCollection_validates_dimension [] ⟨"cat.jpg", "image/jpeg", 4, "AAAA"⟩
    .MobileNet (fun _ _ => .ok [1, 2, 3]) (fun _ => none) 1 0 "u" [1, 2, 3]
    (by decide) (by norm_num) rfl (by decide)

/-- C5 counterexample: a collection named "c" exists with declared
dimension 512; `ensureCollection` requested at dimension 1280 returns
with the store unchanged (the 512-dimensional collection remains) — the
code has no conflict check and no failure path here, so no
`CollectionConflictError` is ever raised. -/
theorem ensureCollection_conflict_no_error :
    ensureCollection
        ([{ name := "c", size := 512, distance := "Cosine", points := [] }] :
          QdrantState Nat) "c" 1280 =
      [{ name := "c", size := 512, distance := "Cosine", points := [] }] ∧
    (findCollection (ensureCollection
        ([{ name := "c", size := 512, distance := "Cosine", points := [] }] :
          QdrantState Nat) "c" 1280) "c").map (fun c => c.size) = some 512 := by
  constructor <;> rfl

/-- C5 amended: `ensureCollection` creates an absent collection with the
requested size and the Cosine metric; when any collection of that name
already exists — whatever its declared dimension — it changes nothing
and raises no error. -/
theorem ensureCollection_spec {ι : Type} (st : QdrantState ι) (n : String) (k : Nat) :
    ensureCollection st n k =
      if (findCollection st n).isSome then st
      else st ++ [{ name := n, size := k, distance := "Cosine", points := [] }] := by
  unfold ensureCollection
  rw [collectionExists_eq_isSome]

set_option maxRecDepth 8192 in
/-- C6 counterexample: the first upsert attempt fails transiently and
every later attempt would succeed, yet the ingest handler surfaces the
terminal 500 after exactly one attempt — no retry, no backoff. -/
theorem upsert_transient_error_not_retried :
    (addToCollectionPOST [] (some ⟨"cat.jpg", "image/jpeg", 4, "AAAA"⟩) .MobileNet
        (fun _ _ => .ok (List.replicate 1280 0))
        (fun n => if n = 0 then some "fetch failed" else none) 1 0 "u").response =
      .err 500 "Error processing image: fetch failed" ∧
    (addToCollectionPOST [] (some ⟨"cat.jpg", "image/jpeg", 4, "AAAA"⟩) .MobileNet
        (fun _ _ => .ok (List.replicate 1280 0))
        (fun n => if n = 0 then some "fetch failed" else none) 1 0 "u").upsertCalls
      = 1 := by
  constructor <;> rfl

/-- C6 amended: there is no retry logic: a transient network failure of
the single upsert attempt is surfaced immediately as a terminal 500
error after exactly one attempt, whatever the outcomes of hypothetical
later attempts would have been (and dimension mismatches are likewise
never retried, as no retry loop exists at all). -/
theorem addToCollection_single_attempt (st : QdrantState String) (file : ReqFile)
    (modelType : EmbeddingModelType)
    (embed : String → EmbeddingModelType → Except String (List ℚ))
    (netFail : Nat → Option String) (now rand : Nat) (uuid : String)
    (v : List ℚ) (e : String)
    (htype : stringStartsWith file.type "image/" = true)
    (hsize : file.size ≤ 10 * 1024 * 1024)
    (hv : embed file.data modelType = .ok v)
    (hlen : v.length = (getModelInfo modelType).vectorSize)
    (hnet : netFail 0 = some e) :
    (addToCollectionPOST st (some file) modelType embed netFail now rand uuid).response =
      .err 500 ("Error processing image: " ++ e) ∧
    (addToCollectionPOST st (some file) modelType embed netFail now rand uuid).upsertCalls
      = 1 := by
  have hsize' : ¬ file.size > 10 * 1024 * 1024 := by omega
  simp [addToCollectionPOST, htype, hsize', hv, hlen, hnet]

/-- Witness for the amended C6 at a concrete transient failure. -/
theorem addToCollection_single_attempt_witness :
    (addToCollectionPOST [] (some ⟨"dog.jpg", "image/png", 9, "AAAA"⟩) .CLIP
        (fun _ _ => .ok (List.replicate 768 0))
        (fun _ => some "ECONNRESET") 2 3 "w").response =
      .err 500 ("Error processing image: " ++ "ECONNRESET") ∧
    (addToCollectionPOST [] (some ⟨"dog.jpg", "image/png", 9, "AAAA"⟩) .CLIP
        (fun _ _ => .ok (List.replicate 768 0))
        (fun _ => some "ECONNRESET") 2 3 "w").upsertCalls = 1 :=
  addToCollection_single_attempt [] ⟨"dog.jpg", "image/png", 9, "AAAA"⟩ .CLIP
    (fun _ _ => .ok (List.replicate 768 0)) (fun _ => some "ECONNRESET") 2 3 "w"
    (List.replicate 768 0) "ECONNRESET" (by decide) (by norm_num) rfl
    (by rw [List.length_replicate]; rfl) rfl

set_option maxRecDepth 8192 in
/-- C2 counterexample: the same image ingested with the same model at two
wall-clock instants (1 ms and 2 ms) ends up stored twice — the point id
is derived from time and randomness, not content, so the second ingest
appends a second record instead of overwriting the first. -/
theorem ingest_twice_duplicates :
    (findCollection (addToCollectionPOST
        (addToCollectionPOST [] (some ⟨"cat.jpg", "image/jpeg", 4, "AAAA"⟩) .MobileNet
          (fun _ _ => .ok (List.replicate 1280 0)) (fun _ => none) 1 0 "u1").state
        (some ⟨"cat.jpg", "image/jpeg", 4, "AAAA"⟩) .MobileNet
        (fun _ _ => .ok (List.replicate 1280 0)) (fun _ => none) 2 0 "u2").state
      "mobilenet_embeddings").map (fun c => c.points.length) = some 2 := by
  rfl

/-- C2 amended: the ingest id is `point_<now>_<rand>` — derived from
wall-clock time and randomness, never from content — so re-ingesting the
same image leaves exactly one record only when the (time, random) pair
collides; at any other instant the second ingest appends a second record
instead of overwriting. -/
theorem addToCollection_id_time_derived (file : ReqFile)
    (modelType : EmbeddingModelType)
    (embed : String → EmbeddingModelType → Except String (List ℚ)) (v : List ℚ)
    (now₁ rand₁ now₂ rand₂ : Nat) (uuid₁ uuid₂ : String)
    (htype : stringStartsWith file.type "image/" = true)
    (hsize : file.size ≤ 10 * 1024 * 1024)
    (hv : embed file.data modelType = .ok v)
    (hlen : v.length = (getModelInfo modelType).vectorSize) :
    (findCollection (addToCollectionPOST
        (addToCollectionPOST [] (some file) modelType embed (fun _ => none)
          now₁ rand₁ uuid₁).state
        (some file) modelType embed (fun _ => none) now₂ rand₂ uuid₂).state
      (getModelInfo modelType).collectionName).map (fun c => c.points.length) =
      some (if pointIdOf now₁ rand₁ = pointIdOf now₂ rand₂ then 1 else 2) := by
  obtain ⟨c1, hc1, hcs1, heq1⟩ := addToCollectionPOST_success [] file modelType embed
    (fun _ => none) now₁ rand₁ uuid₁ v htype hsize hv hlen rfl (by simp)
  have hnone : findCollection ([] : QdrantState String)
      (getModelInfo modelType).collectionName = none := rfl
  have hc1' : c1 =
      { name := (getModelInfo modelType).collectionName,
        size := (getModelInfo modelType).vectorSize, distance := "Cosine",
        points := [] } := by
    rw [ensureCollection_of_absent hnone] at hc1
    unfold findCollection at hc1
    rw [List.nil_append, List.find?_cons_of_pos
      (p := fun c : QCollection String =>
        c.name == (getModelInfo modelType).collectionName) _ (by simp)] at hc1
    exact (Option.some.inj hc1).symm
  subst hc1'
  have hempty : ∀ c ∈ ([] : QdrantState String),
      c.name = (getModelInfo modelType).collectionName →
      c.size = (getModelInfo modelType).vectorSize := by simp
  have hst1 := sizes_setPoints_ensure hempty (upsertPoint []
    { id := pointIdOf now₁ rand₁, vector := v,
      payload := [("filename", file.name),
                  ("modelType", modelType.asString), ("uuid", uuid₁)] })
  obtain ⟨c2, hc2, hcs2, heq2⟩ := addToCollectionPOST_success
    (setPoints (ensureCollection [] (getModelInfo modelType).collectionName
        (getModelInfo modelType).vectorSize) (getModelInfo modelType).collectionName
      (upsertPoint []
        { id := pointIdOf now₁ rand₁, vector := v,
          payload := [("filename", file.name),
                      ("modelType", modelType.asString), ("uuid", uuid₁)] }))
    file modelType embed (fun _ => none) now₂ rand₂ uuid₂ v htype hsize hv hlen rfl hst1
  have hfind1 : findCollection
      (setPoints (ensureCollection [] (getModelInfo modelType).collectionName
          (getModelInfo modelType).vectorSize) (getModelInfo modelType).collectionName
        (upsertPoint []
          { id := pointIdOf now₁ rand₁, vector := v,
            payload := [("filename", file.name),
                        ("modelType", modelType.asString), ("uuid", uuid₁)] }))
      (getModelInfo modelType).collectionName =
      some
        { name := (getModelInfo modelType).collectionName,
          size := (getModelInfo modelType).vectorSize, distance := "Cosine",
          points := upsertPoint []
            { id := pointIdOf now₁ rand₁, vector := v,
              payload := [("filename", file.name),
                          ("modelType", modelType.asString), ("uuid", uuid₁)] } } := by
    rw [findCollection_setPoints, hc1]
    rfl
  have hens2 := ensureCollection_of_exists hfind1 (getModelInfo modelType).vectorSize
  have hc2' : c2 =
      { name := (getModelInfo modelType).collectionName,
        size := (getModelInfo modelType).vectorSize, distance := "Cosine",
        points := upsertPoint []
          { id := pointIdOf now₁ rand₁, vector := v,
            payload := [("filename", file.name),
                        ("modelType", modelType.asString), ("uuid", uuid₁)] } } := by
    rw [hens2, hfind1] at hc2
    exact (Option.some.inj hc2).symm
  subst hc2'
  simp only [heq1]
  simp only [heq2]
  rw [hens2, findCollection_setPoints, hfind1]
  by_cases hid : pointIdOf now₁ rand₁ = pointIdOf now₂ rand₂
  · simp [upsertPoint, hid]
  · simp [upsertPoint, hid]

set_option maxRecDepth 8192 in
/-- Witness for the amended C2 at two concrete instants 1 and 2. -/
theorem addToCollection_id_time_derived_witness :
    (findCollection (addToCollectionPOST
        (addToCollectionPOST [] (some ⟨"cat.jpg", "image/jpeg", 4, "AAAA"⟩) .MobileNet
          (fun _ _ => .ok (List.replicate 1280 0)) (fun _ => none) 1 0 "u1").state
        (some ⟨"cat.jpg", "image/jpeg", 4, "AAAA"⟩) .MobileNet
        (fun _ _ => .ok (List.replicate 1280 0)) (fun _ => none) 2 0 "u2").state
      (getModelInfo .MobileNet).collectionName).map (fun c => c.points.length) =
      some (if pointIdOf 1 0 = pointIdOf 2 0 then 1 else 2) :=
  addToCollection_id_time_derived ⟨"cat.jpg", "image/jpeg", 4, "AAAA"⟩ .MobileNet
    (fun _ _ => .ok (List.replicate 1280 0)) (List.replicate 1280 0) 1 0 2 0 "u1" "u2"
    (by decide) (by norm_num) rfl (by rw [List.length_replicate]; rfl)

/-- C10: the fixed-collection ingest handler upserts under the bare
`Date.now()` value: the upserted point id equals the handling-time clock
value, and when two requests are processed with the same clock value
both writes use the same id — the record count stays the same and the
stored point under that id is the second request's record (the later
write replaces the earlier one instead of adding a record). -/
theorem fixedPOST_timestamp_id (st : QdrantState Nat) (f1 f2 : ReqFile)
    (embed1 embed2 : String → Except String (List ℚ)) (v1 v2 : List ℚ) (now : Nat)
    (h1 : embed1 f1.data = .ok v1) (hl1 : v1.length = VECTOR_SIZE)
    (h2 : embed2 f2.data = .ok v2) (hl2 : v2.length = VECTOR_SIZE)
    (hst : ∀ c ∈ st, c.name = COLLECTION_NAME → c.size = VECTOR_SIZE) :
    (addToCollectionFixedPOST st (some f1) embed1 (fun _ => none) now).upserted.map
        (fun p => p.id) = some now ∧
    (addToCollectionFixedPOST (addToCollectionFixedPOST st (some f1) embed1
        (fun _ => none) now).state (some f2) embed2 (fun _ => none) now).upserted.map
        (fun p => p.id) = some now ∧
    (findCollection (addToCollectionFixedPOST (addToCollectionFixedPOST st (some f1)
        embed1 (fun _ => none) now).state (some f2) embed2 (fun _ => none) now).state
      COLLECTION_NAME).map (fun c => c.points.length) =
      (findCollection (addToCollectionFixedPOST st (some f1) embed1
        (fun _ => none) now).state COLLECTION_NAME).map (fun c => c.points.length) ∧
    (findCollection (addToCollectionFixedPOST (addToCollectionFixedPOST st (some f1)
        embed1 (fun _ => none) now).state (some f2) embed2 (fun _ => none) now).state
      COLLECTION_NAME).map (fun c => c.points.find? (fun q => q.id == now)) =
      some (some { id := now, vector := v2, payload := [("filename", f2.name)] }) := by
  obtain ⟨c, hc, hcs, heq1⟩ := addToCollectionFixedPOST_success st f1 embed1
    (fun _ => none) now v1 h1 hl1 rfl hst
  have hst1 := sizes_setPoints_ensure hst (upsertPoint c.points
    { id := now, vector := v1, payload := [("filename", f1.name)] })
  obtain ⟨c2, hc2, hcs2, heq2⟩ := addToCollectionFixedPOST_success
    (setPoints (ensureCollection st COLLECTION_NAME VECTOR_SIZE) COLLECTION_NAME
      (upsertPoint c.points
        { id := now, vector := v1, payload := [("filename", f1.name)] }))
    f2 embed2 (fun _ => none) now v2 h2 hl2 rfl hst1
  have hfind1 : findCollection
      (setPoints (ensureCollection st COLLECTION_NAME VECTOR_SIZE) COLLECTION_NAME
        (upsertPoint c.points
          { id := now, vector := v1, payload := [("filename", f1.name)] }))
      COLLECTION_NAME =
      some
        { name := c.name, size := c.size, distance := c.distance,
          points := upsertPoint c.points
            { id := now, vector := v1, payload := [("filename", f1.name)] } } := by
    rw [findCollection_setPoints, hc]
    rfl
  have hens2 := ensureCollection_of_exists hfind1 VECTOR_SIZE
  have hc2' : c2 =
      { name := c.name, size := c.size, distance := c.distance,
        points := upsertPoint c.points
          { id := now, vector := v1, payload := [("filename", f1.name)] } } := by
    rw [hens2, hfind1] at hc2
    exact (Option.some.inj hc2).symm
  subst hc2'
  have hexists : ∃ q ∈ upsertPoint c.points
      { id := now, vector := v1, payload := [("filename", f1.name)] },
      q.id = ({ id := now, vector := v2, payload := [("filename", f2.name)] } :
        QPoint Nat).id := by
    obtain ⟨q, hq, hid⟩ := exists_id_upsertPoint c.points
      { id := now, vector := v1, payload := [("filename", f1.name)] }
    exact ⟨q, hq, hid⟩
  refine ⟨?_, ?_, ?_, ?_⟩
  · simp [heq1]
  · simp only [heq1]
    simp [heq2]
  · simp only [heq1]
    simp only [heq2]
    rw [hens2, findCollection_setPoints, hfind1]
    simp [length_upsertPoint_of_exists hexists]
  · simp only [heq1]
    simp only [heq2]
    rw [hens2, findCollection_setPoints, hfind1]
    simp only [Option.map_some', Option.some.injEq]
    exact find?_upsertPoint
      (upsertPoint c.points { id := now, vector := v1, payload := [("filename", f1.name)] })
      { id := now, vector := v2, payload := [("filename", f2.name)] }

set_option maxRecDepth 8192 in
/-- Witness for C10 at two concrete requests sharing clock value 5. -/
theorem fixedPOST_timestamp_id_witness :
    (addToCollectionFixedPOST [] (some ⟨"cat.jpg", "image/jpeg", 4, "AAAA"⟩)
        (fun _ => .ok (List.replicate 1280 0)) (fun _ => none) 5).upserted.map
        (fun p => p.id) = some 5 ∧
    (addToCollectionFixedPOST (addToCollectionFixedPOST []
        (some ⟨"cat.jpg", "image/jpeg", 4, "AAAA"⟩)
        (fun _ => .ok (List.replicate 1280 0)) (fun _ => none) 5).state
        (some ⟨"dog.jpg", "image/png", 4, "BBBB"⟩)
        (fun _ => .ok (List.replicate 1280 1)) (fun _ => none) 5).upserted.map
        (fun p => p.id) = some 5 ∧
    (findCollection (addToCollectionFixedPOST (addToCollectionFixedPOST []
        (some ⟨"cat.jpg", "image/jpeg", 4, "AAAA"⟩)
        (fun _ => .ok (List.replicate 1280 0)) (fun _ => none) 5).state
        (some ⟨"dog.jpg", "image/png", 4, "BBBB"⟩)
        (fun _ => .ok (List.replicate 1280 1)) (fun _ => none) 5).state
      COLLECTION_NAME).map (fun c => c.points.length) =
      (findCollection (addToCollectionFixedPOST []
        (some ⟨"cat.jpg", "image/jpeg", 4, "AAAA"⟩)
        (fun _ => .ok (List.replicate 1280 0)) (fun _ => none) 5).state
      COLLECTION_NAME).map (fun c => c.points.length) ∧
    (findCollection (addToCollectionFixedPOST (addToCollectionFixedPOST []
        (some ⟨"cat.jpg", "image/jpeg", 4, "AAAA"⟩)
        (fun _ => .ok (List.replicate 1280 0)) (fun _ => none) 5).state
        (some ⟨"dog.jpg", "image/png", 4, "BBBB"⟩)
        (fun _ => .ok (List.replicate 1280 1)) (fun _ => none) 5).state
      COLLECTION_NAME).map (fun c => c.points.find? (fun q => q.id == 5)) =
      some (some { id := 5, vector := List.replicate 1280 1,
                   payload := [("filename", "dog.jpg")] }) :=
  fixedPOST_timestamp_id [] ⟨"cat.jpg", "image/jpeg", 4, "AAAA"⟩
    ⟨"dog.jpg", "image/png", 4, "BBBB"⟩
    (fun _ => .ok (List.replicate 1280 0)) (fun _ => .ok (List.replicate 1280 1))
    (List.replicate 1280 0) (List.replicate 1280 1) 5
    rfl (by rw [List.length_replicate]; rfl)
    rfl (by rw [List.length_replicate]; rfl) (by simp)

end ImageEmbed
